import Mathlib

/-!
# Verification of the Windows timezone backend (`windows.cpp`)

A shallow embedding of `core/nativeMain/cinterop/cpp/windows.cpp` together with
proofs about its documented behaviour.

Modelling conventions:

* `SYSTEMTIME`, `TIME_ZONE_INFORMATION` and `DYNAMIC_TIME_ZONE_INFORMATION` are
  plain structures over `Nat`/`Int` (the `WORD` fields are `Nat`, the bias
  fields are `LONG`, hence `Int`).
* The Windows conversions `FileTimeToSystemTime`/`SystemTimeToFileTime` and the
  `date` library's `days_from_civil`/`civil_from_days` are modelled by the
  standard proleptic-Gregorian algorithms (Howard Hinnant's formulas, which are
  what `date.h` implements and what the documented FILETIME range semantics
  require): a `FILETIME` is a count of 100ns ticks since 1601-01-01, valid for
  years 1601..30827. `SystemTimeToFileTime` validates its input (and ignores
  `wDayOfWeek`, as documented) and fails on invalid dates; the C++ caller
  `systemtime_to_ticks` initializes the output to `{0,0}` and ignores the
  return value, so a failed conversion yields 0 ticks.
* The clock (`std::chrono::steady_clock`) is modelled as a `Nat` counting
  seconds, so `CACHE_INVALIDATION_TIMEOUT` (5 minutes) is 300.
* The zone-name tables of `windows_zones.hpp` are not part of the source; they
  are passed as an abstract partial mapping, following the spec.
-/

def SECS_BETWEEN_1601_1970 : Int := 11644473600

def WINDOWS_TICKS_PER_SEC : Nat := 10000000

def MAX_KEY_LENGTH : Nat := 128

def CACHE_INVALIDATION_TIMEOUT : Nat := 300

/-- the C sentinel `INT_MAX` returned for unresolvable zones. -/
def INT_MAX : Int := 2147483647

/-- the Windows `SYSTEMTIME` structure (all fields are `WORD`s). -/
structure SystemTime where
  wYear : Nat
  wMonth : Nat
  wDayOfWeek : Nat
  wDay : Nat
  wHour : Nat
  wMinute : Nat
  wSecond : Nat
  wMilliseconds : Nat
deriving DecidableEq, Repr

/-- the Windows `TIME_ZONE_INFORMATION` structure (name strings omitted). -/
structure TimeZoneInformation where
  Bias : Int
  StandardDate : SystemTime
  StandardBias : Int
  DaylightDate : SystemTime
  DaylightBias : Int
deriving DecidableEq, Repr

/-- the Windows `DYNAMIC_TIME_ZONE_INFORMATION` structure. `tzi` carries the
    transition rules; `perYearOk` models whether the registry lookup performed
    by `GetTimeZoneInformationForYear` succeeds for this record. -/
structure DynamicTimeZoneInformation where
  keyName : String
  tzi : TimeZoneInformation
  perYearOk : Bool
deriving DecidableEq, Repr

/-- Hinnant's `days_from_civil`, shifted to a `Nat` count with day 0 at
    civil 0000-03-01 (so 1970-01-01 is day 719468). This is the algorithm of
    the `date` library used by `get_transition_date`, and the day arithmetic
    underlying the documented FILETIME format. -/
def daysFromCivil (y m d : Nat) : Nat :=
  let y' := y - (if m ≤ 2 then 1 else 0)
  let era := y' / 400
  let yoe := y' % 400
  let doy := (153 * (if m > 2 then m - 3 else m + 9) + 2) / 5 + d - 1
  let doe := yoe * 365 + yoe / 4 - yoe / 100 + doy
  era * 146097 + doe

/-- Hinnant's `civil_from_days`, the inverse of `daysFromCivil` on the same
    scale, returning `(year, month, day)`. -/
def civilFromDays (z : Nat) : Nat × Nat × Nat :=
  let era := z / 146097
  let doe := z % 146097
  let yoe := (doe - doe / 1460 + doe / 36524 - doe / 146096) / 365
  let y := yoe + era * 400
  let doy := doe - (365 * yoe + yoe / 4 - yoe / 100)
  let mp := (5 * doy + 2) / 153
  let d := doy - (153 * mp + 2) / 5 + 1
  let m := if mp < 10 then mp + 3 else mp - 9
  (y + (if m ≤ 2 then 1 else 0), m, d)

/-- day 1601-01-01 on the `daysFromCivil` scale (= 584694); FILETIME day 0. -/
def days1601 : Nat := daysFromCivil 1601 1 1

/-- the first day after the FILETIME range, 30828-01-01, on the
    `daysFromCivil` scale (= 11259636). -/
def daysEnd30828 : Nat := daysFromCivil 30828 1 1

/-- whether `y` is a Gregorian leap year. -/
def isLeap (y : Nat) : Bool :=
  y % 4 == 0 && (y % 100 != 0 || y % 400 == 0)

/-- length of month `m` of year `y`. -/
def daysInMonth (y m : Nat) : Nat :=
  if m = 2 then (if isLeap y then 29 else 28)
  else if m = 4 ∨ m = 6 ∨ m = 9 ∨ m = 11 then 30
  else 31

/-- day of the week of civil `y-m-d` in the Windows convention (Sunday = 0).
    1601-01-01 (day 584694 of the shifted scale) was a Monday. -/
def dayOfWeek (y m d : Nat) : Nat :=
  (daysFromCivil y m d + 3) % 7

/-- model of `FileTimeToSystemTime`: split a tick count (100ns units since
    1601-01-01) into a calendar `SYSTEMTIME`. Total function; faithful on the
    documented range (years 1601..30827). -/
def fileTimeToSystemTime (t : Nat) : SystemTime :=
  let secs := t / WINDOWS_TICKS_PER_SEC
  let days := secs / 86400
  let rem := secs % 86400
  let ymd := civilFromDays (days + days1601)
  { wYear := ymd.1
    wMonth := ymd.2.1
    wDayOfWeek := (days + 1) % 7
    wDay := ymd.2.2
    wHour := rem / 3600
    wMinute := rem % 3600 / 60
    wSecond := rem % 60
    wMilliseconds := t % WINDOWS_TICKS_PER_SEC / 10000 }

/-- model of `SystemTimeToFileTime`: validate the `SYSTEMTIME` (year in
    1601..30827, month, day-of-month, time fields; `wDayOfWeek` is ignored, as
    documented) and produce the tick count; `none` models a `FALSE` return. -/
def systemTimeToFileTime (st : SystemTime) : Option Nat :=
  if 1601 ≤ st.wYear ∧ st.wYear ≤ 30827 ∧ 1 ≤ st.wMonth ∧ st.wMonth ≤ 12 ∧
     1 ≤ st.wDay ∧ st.wDay ≤ daysInMonth st.wYear st.wMonth ∧
     st.wHour < 24 ∧ st.wMinute < 60 ∧ st.wSecond < 60 ∧ st.wMilliseconds < 1000
  then some (((daysFromCivil st.wYear st.wMonth st.wDay - days1601) * 86400 +
      st.wHour * 3600 + st.wMinute * 60 + st.wSecond) * WINDOWS_TICKS_PER_SEC +
      st.wMilliseconds * 10000)
  else none

/-- embedding of `systemtime_to_ticks`: the C++ code initializes the output
    `FILETIME` to `{0, 0}` and ignores the API's return value, so a failed
    conversion yields 0. -/
def systemtime_to_ticks (st : SystemTime) : Nat :=
  (systemTimeToFileTime st).getD 0

/-- embedding of `systemtime_to_unix_time`. -/
def systemtime_to_unix_time (st : SystemTime) : Int :=
  (systemtime_to_ticks st / WINDOWS_TICKS_PER_SEC : Nat) - SECS_BETWEEN_1601_1970

/-- embedding of `unix_time_to_systemtime`; for epoch seconds inside the
    FILETIME range the `toNat` is exact. -/
def unix_time_to_systemtime (epoch_sec : Int) : SystemTime :=
  fileTimeToSystemTime ((epoch_sec + SECS_BETWEEN_1601_1970) * (WINDOWS_TICKS_PER_SEC : Int)).toNat

/-- embedding of `get_transition_date`: translate the packed transition rule
    `src` to a concrete date of `year`. An absolute rule (`wYear ≠ 0`) is
    returned verbatim; a floating rule resolves the `wDay`-th occurrence
    (5 = last) of weekday `wDayOfWeek` in month `wMonth`, exactly as the
    `date` library's `year_month_weekday`/`year_month_weekday_last` compute
    it. Only `wYear` and `wDay` of the result differ from `src`. -/
def get_transition_date (year : Nat) (src : SystemTime) : SystemTime :=
  if src.wYear ≠ 0 then src
  else
    let day :=
      if src.wDay == 5 then
        let dim := daysInMonth year src.wMonth
        dim - (7 + dayOfWeek year src.wMonth dim - src.wDayOfWeek) % 7
      else
        1 + (7 + src.wDayOfWeek - dayOfWeek year src.wMonth 1) % 7 + 7 * (src.wDay - 1)
    { src with wYear := year, wDay := day }

/-- embedding of `is_daylight_time` (the unused `dtzi` parameter of the C++
    function is dropped). -/
def is_daylight_time (tzi : TimeZoneInformation) (time : SystemTime) : Bool :=
  if tzi.StandardDate.wMonth == 0 then false
  else
    let standard_local := get_transition_date time.wYear tzi.StandardDate
    let daylight_local := get_transition_date time.wYear tzi.DaylightDate
    let standard : Int :=
      (systemtime_to_ticks standard_local / WINDOWS_TICKS_PER_SEC : Nat) +
        (tzi.Bias + tzi.DaylightBias) * 60
    let daylight : Int :=
      (systemtime_to_ticks daylight_local / WINDOWS_TICKS_PER_SEC : Nat) +
        (tzi.Bias + tzi.StandardBias) * 60
    let time_secs : Int :=
      (systemtime_to_ticks time / WINDOWS_TICKS_PER_SEC : Nat)
    if daylight < standard then
      decide (time_secs < standard) && decide (time_secs ≥ daylight)
    else
      decide (time_secs < standard) || decide (time_secs ≥ daylight)

/-- model of `GetTimeZoneInformationForYear`: the year-specific rules of a
    dynamic record (we model records as year-independent, carrying their
    `TIME_ZONE_INFORMATION` directly; `perYearOk` models registry failure). -/
def getTimeZoneInformationForYear (_year : Nat)
    (dtzi : DynamicTimeZoneInformation) : Option TimeZoneInformation :=
  if dtzi.perYearOk then some dtzi.tzi else none

/-- embedding of `offset_at_systime`. -/
def offset_at_systime (dtzi : DynamicTimeZoneInformation)
    (systime : SystemTime) : Int :=
  match getTimeZoneInformationForYear systime.wYear dtzi with
  | none => INT_MAX
  | some tzi =>
    let bias := tzi.Bias +
      (if is_daylight_time tzi systime then tzi.DaylightBias else tzi.StandardBias);
    -bias * 60

/-- the resolved standard transition rule of the candidate's year, on the raw
    (uncorrected) linear scale of seconds since 1601-01-01. -/
def resolvedStandardRaw (tzi : TimeZoneInformation) (year : Nat) : Int :=
  (systemtime_to_ticks (get_transition_date year tzi.StandardDate) /
    WINDOWS_TICKS_PER_SEC : Nat)

/-- the resolved daylight transition rule of the candidate's year, on the raw
    (uncorrected) linear scale of seconds since 1601-01-01. -/
def resolvedDaylightRaw (tzi : TimeZoneInformation) (year : Nat) : Int :=
  (systemtime_to_ticks (get_transition_date year tzi.DaylightDate) /
    WINDOWS_TICKS_PER_SEC : Nat)

/-- the standard transition instant as the evaluator places it on the common
    linear scale: the raw resolved date corrected by `Bias + DaylightBias`
    minutes (the bias pair active just before that transition). -/
def standardInstant (tzi : TimeZoneInformation) (year : Nat) : Int :=
  resolvedStandardRaw tzi year + (tzi.Bias + tzi.DaylightBias) * 60

/-- the daylight transition instant on the common linear scale, corrected by
    `Bias + StandardBias` minutes. -/
def daylightInstant (tzi : TimeZoneInformation) (year : Nat) : Int :=
  resolvedDaylightRaw tzi year + (tzi.Bias + tzi.StandardBias) * 60

/-- the candidate instant on the common linear scale. -/
def candidateSecs (time : SystemTime) : Int :=
  (systemtime_to_ticks time / WINDOWS_TICKS_PER_SEC : Nat)

/-- the interval decision taken by `is_daylight_time` once the three linear
    instants are known. -/
def dstIntervalDecision (standard daylight time_secs : Int) : Bool :=
  if daylight < standard then
    decide (time_secs < standard) && decide (time_secs ≥ daylight)
  else
    decide (time_secs < standard) || decide (time_secs ≥ daylight)

/-- a US-Eastern-style record: base bias 300 minutes, daylight delta -60,
    standard transition first Sunday of November 02:00, daylight transition
    second Sunday of March 02:00 (used as concrete witness data). -/
def easternTzi : TimeZoneInformation :=
  { Bias := 300, StandardDate := ⟨0, 11, 0, 1, 2, 0, 0, 0⟩, StandardBias := 0,
    DaylightDate := ⟨0, 3, 0, 2, 2, 0, 0, 0⟩, DaylightBias := -60 }

/-- the dynamic record wrapping `easternTzi`. -/
def easternDtzi : DynamicTimeZoneInformation :=
  { keyName := "Eastern Standard Time", tzi := easternTzi, perYearOk := true }

/-- C1: for a record that observes daylight saving, `is_daylight_time` decides
    daylight-saving membership by the half-open interval rule on the three
    resolved linear instants: when `daylightInstant < standardInstant`
    (STANDARD-DAYLIGHT-STANDARD year) daylight is active iff the candidate
    lies in `[daylightInstant, standardInstant)`; otherwise
    (DAYLIGHT-STANDARD-DAYLIGHT year) daylight is active iff the candidate
    lies outside that interval. -/
theorem C1_dst_interval_rule (tzi : TimeZoneInformation) (time : SystemTime)
    (h : tzi.StandardDate.wMonth ≠ 0) :
    (is_daylight_time tzi time = true ↔
      (if daylightInstant tzi time.wYear < standardInstant tzi time.wYear then
        daylightInstant tzi time.wYear ≤ candidateSecs time ∧
          candidateSecs time < standardInstant tzi time.wYear
      else
        candidateSecs time < standardInstant tzi time.wYear ∨
          daylightInstant tzi time.wYear ≤ candidateSecs time)) := by
  have hbeq : (tzi.StandardDate.wMonth == 0) = false := by
    simp [Nat.beq_eq_true_eq]; omega
  unfold is_daylight_time standardInstant daylightInstant candidateSecs
    resolvedStandardRaw resolvedDaylightRaw
  rw [hbeq]
  simp only [Bool.if_false_left, Bool.and_eq_true, Bool.or_eq_true,
    decide_eq_true_eq, ge_iff_le]
  split <;> simp [and_comm, or_comm]

/-- C1 witness: a concrete instance of the interval rule for the Eastern
    record at 2021-11-07 06:30 UTC. -/
theorem C1_dst_interval_rule_witness :
    easternTzi.StandardDate.wMonth ≠ 0 ∧
    (is_daylight_time easternTzi (unix_time_to_systemtime 1636266600) = true ↔
      (if daylightInstant easternTzi (unix_time_to_systemtime 1636266600).wYear <
          standardInstant easternTzi (unix_time_to_systemtime 1636266600).wYear then
        daylightInstant easternTzi (unix_time_to_systemtime 1636266600).wYear ≤
            candidateSecs (unix_time_to_systemtime 1636266600) ∧
          candidateSecs (unix_time_to_systemtime 1636266600) <
            standardInstant easternTzi (unix_time_to_systemtime 1636266600).wYear
      else
        candidateSecs (unix_time_to_systemtime 1636266600) <
            standardInstant easternTzi (unix_time_to_systemtime 1636266600).wYear ∨
          daylightInstant easternTzi (unix_time_to_systemtime 1636266600).wYear ≤
            candidateSecs (unix_time_to_systemtime 1636266600))) :=
  ⟨by decide, C1_dst_interval_rule easternTzi (unix_time_to_systemtime 1636266600) (by decide)⟩

/-- C2 counterexample: a record whose daylight rule has month 0 but whose
    standard rule has not, on which `is_daylight_time` returns `true` rather
    than false: the code's early-exit guard tests `StandardDate.wMonth`, not
    `DaylightDate.wMonth`. -/
theorem C2_counterexample :
    (⟨0, ⟨2005, 7, 5, 1, 0, 0, 0, 0⟩, 0, ⟨2005, 0, 0, 15, 0, 0, 0, 0⟩,
        -60⟩ : TimeZoneInformation).DaylightDate.wMonth = 0 ∧
    is_daylight_time
      ⟨0, ⟨2005, 7, 5, 1, 0, 0, 0, 0⟩, 0, ⟨2005, 0, 0, 15, 0, 0, 0, 0⟩, -60⟩
      ⟨2005, 6, 3, 1, 0, 0, 0, 0⟩ = true := by
  constructor
  · rfl
  · decide

/-- C2 (amended): the early exit of `is_daylight_time` is guarded by the
    *standard* rule's month: whenever `StandardDate.wMonth = 0` the evaluator
    returns false immediately, before resolving any transition rule. -/
theorem C2_no_dst_guard (tzi : TimeZoneInformation) (time : SystemTime)
    (h : tzi.StandardDate.wMonth = 0) :
    is_daylight_time tzi time = false := by
  unfold is_daylight_time
  simp [h]

/-- C2 witness: a record with standard-rule month 0 evaluates to false. -/
theorem C2_no_dst_guard_witness :
    (⟨0, ⟨0, 0, 0, 0, 0, 0, 0, 0⟩, 0, ⟨0, 0, 0, 0, 0, 0, 0, 0⟩,
        0⟩ : TimeZoneInformation).StandardDate.wMonth = 0 ∧
    is_daylight_time ⟨0, ⟨0, 0, 0, 0, 0, 0, 0, 0⟩, 0, ⟨0, 0, 0, 0, 0, 0, 0, 0⟩, 0⟩
      ⟨2021, 6, 2, 1, 0, 0, 0, 0⟩ = false :=
  ⟨rfl, C2_no_dst_guard _ _ rfl⟩

/-- C3: once the two transition rules are resolved against the candidate's
    year, the evaluator decides on linear instants obtained by correcting the
    raw standard-transition seconds by `Bias + DaylightBias` and the raw
    daylight-transition seconds by `Bias + StandardBias` — each correction in
    minutes being the negation of the then-active local offset
    `-(Bias + X)`, added in seconds (i.e. `raw - (-(Bias + X))·60`). -/
theorem C3_bias_corrections (tzi : TimeZoneInformation) (time : SystemTime)
    (h : tzi.StandardDate.wMonth ≠ 0) :
    is_daylight_time tzi time =
      dstIntervalDecision (standardInstant tzi time.wYear)
        (daylightInstant tzi time.wYear) (candidateSecs time) ∧
    standardInstant tzi time.wYear =
      resolvedStandardRaw tzi time.wYear - (-(tzi.Bias + tzi.DaylightBias)) * 60 ∧
    daylightInstant tzi time.wYear =
      resolvedDaylightRaw tzi time.wYear - (-(tzi.Bias + tzi.StandardBias)) * 60 := by
  refine ⟨?_, by unfold standardInstant; ring, by unfold daylightInstant; ring⟩
  have hbeq : (tzi.StandardDate.wMonth == 0) = false := by
    simp [Nat.beq_eq_true_eq]; omega
  unfold is_daylight_time dstIntervalDecision standardInstant daylightInstant
    candidateSecs resolvedStandardRaw resolvedDaylightRaw
  rw [hbeq]
  simp

/-- C3 witness: the bias-correction identities at the Eastern record and a
    concrete candidate. -/
theorem C3_bias_corrections_witness :
    easternTzi.StandardDate.wMonth ≠ 0 ∧
    (is_daylight_time easternTzi (unix_time_to_systemtime 1636266600) =
      dstIntervalDecision
        (standardInstant easternTzi (unix_time_to_systemtime 1636266600).wYear)
        (daylightInstant easternTzi (unix_time_to_systemtime 1636266600).wYear)
        (candidateSecs (unix_time_to_systemtime 1636266600)) ∧
    standardInstant easternTzi (unix_time_to_systemtime 1636266600).wYear =
      resolvedStandardRaw easternTzi (unix_time_to_systemtime 1636266600).wYear -
        (-(easternTzi.Bias + easternTzi.DaylightBias)) * 60 ∧
    daylightInstant easternTzi (unix_time_to_systemtime 1636266600).wYear =
      resolvedDaylightRaw easternTzi (unix_time_to_systemtime 1636266600).wYear -
        (-(easternTzi.Bias + easternTzi.StandardBias)) * 60) :=
  ⟨by decide, C3_bias_corrections easternTzi (unix_time_to_systemtime 1636266600) (by decide)⟩

/-!
## The civil-calendar inverse

`civilFromDays` is a two-sided inverse of `daysFromCivil` on the FILETIME
range. The era-year extraction is verified by a 400-point decidable check
plus monotonicity of the leap-corrected day count; the month/day extraction
by a 366-point decidable check; the remaining glue is linear arithmetic.
-/

/-- start day-of-era of era-year `yoe` (March-shifted years). -/
def startF (yoe : Nat) : Nat := 365 * yoe + yoe / 4 - yoe / 100

/-- the leap-corrected day count used by `civilFromDays` to extract the
    era-year. -/
def hF (doe : Nat) : Nat := doe - doe / 1460 + doe / 36524 - doe / 146096

/-- last day-of-era of era-year `yoe`. -/
def endF (yoe : Nat) : Nat := if yoe = 399 then 146096 else startF (yoe + 1) - 1

theorem hF_mono : Monotone hF := by
  apply monotone_nat_of_le_succ
  intro n
  unfold hF
  omega

def yoeOk (yoe : Nat) : Bool :=
  decide (365 * yoe ≤ hF (startF yoe)) && decide (hF (endF yoe) < 365 * (yoe + 1))

def yoeOkUpTo : Nat → Bool
  | 0 => true
  | n + 1 => yoeOk n && yoeOkUpTo n

theorem yoeOkUpTo_spec (n : Nat) (h : yoeOkUpTo n = true) :
    ∀ i, i < n → yoeOk i = true := by
  induction n with
  | zero => omega
  | succ k ih =>
    intro i hi
    simp only [yoeOkUpTo, Bool.and_eq_true] at h
    rcases Nat.lt_succ_iff_lt_or_eq.mp hi with h' | h'
    · exact ih h.2 i h'
    · subst h'; exact h.1

set_option maxRecDepth 2000 in
theorem yoeOkAll : yoeOkUpTo 400 = true := by decide

theorem yoe_extract (doe yoe : Nat) (h399 : yoe ≤ 399)
    (h1 : startF yoe ≤ doe) (h2 : doe ≤ endF yoe) : hF doe / 365 = yoe := by
  have hok := yoeOkUpTo_spec 400 yoeOkAll yoe (by omega)
  simp only [yoeOk, Bool.and_eq_true, decide_eq_true_eq] at hok
  have hm1 := hF_mono h1
  have hm2 := hF_mono h2
  omega

theorem startF_succ_gt (y : Nat) : startF y + 364 ≤ startF (y + 1) := by
  unfold startF
  omega

theorem yoe_cover (doe : Nat) (h : doe < 146097) :
    ∃ yoe, yoe ≤ 399 ∧ startF yoe ≤ doe ∧ doe ≤ endF yoe := by
  induction doe with
  | zero => exact ⟨0, by omega, by simp [startF], by simp [endF, startF]⟩
  | succ k ih =>
    obtain ⟨yoe, h399, hb1, hb2⟩ := ih (by omega)
    by_cases hc : k + 1 ≤ endF yoe
    · exact ⟨yoe, h399, by omega, hc⟩
    · have hne : yoe ≠ 399 := by
        intro he
        rw [he] at hc
        have h146 : endF 399 = 146096 := rfl
        omega
      have hstep : endF yoe = startF (yoe + 1) - 1 := by rw [endF, if_neg hne]
      have hmono1 := startF_succ_gt yoe
      have hmono2 := startF_succ_gt (yoe + 1)
      by_cases h399x : yoe + 1 = 399
      · refine ⟨yoe + 1, by omega, by omega, ?_⟩
        rw [endF, if_pos h399x]
        omega
      · refine ⟨yoe + 1, by omega, by omega, ?_⟩
        rw [endF, if_neg h399x]
        omega

def dimNoLeap (mp : Nat) : Nat :=
  match mp with
  | 0 => 31 | 1 => 30 | 2 => 31 | 3 => 30 | 4 => 31 | 5 => 31
  | 6 => 30 | 7 => 31 | 8 => 30 | 9 => 31 | 10 => 31
  | _ => 28

def monthOk (doy : Nat) : Bool :=
  let mp := (5 * doy + 2) / 153
  let d := doy - (153 * mp + 2) / 5 + 1
  decide (mp < 12) && decide (1 ≤ d) &&
  ((153 * mp + 2) / 5 + (d - 1) == doy) &&
  (decide (10 ≤ mp) == decide (306 ≤ doy)) &&
  (decide (d ≤ dimNoLeap mp) || (mp == 11 && d == 29 && doy == 365))

def monthOkUpTo : Nat → Bool
  | 0 => true
  | n + 1 => monthOk n && monthOkUpTo n

theorem monthOkUpTo_spec (n : Nat) (h : monthOkUpTo n = true) :
    ∀ i, i < n → monthOk i = true := by
  induction n with
  | zero => omega
  | succ k ih =>
    intro i hi
    simp only [monthOkUpTo, Bool.and_eq_true] at h
    rcases Nat.lt_succ_iff_lt_or_eq.mp hi with h' | h'
    · exact ih h.2 i h'
    · subst h'; exact h.1

set_option maxRecDepth 2000 in
theorem monthOkAll : monthOkUpTo 366 = true := by decide

theorem days1601_eq : days1601 = 584694 := by decide

theorem daysEnd30828_eq : daysEnd30828 = 11259636 := by decide

theorem endF_le (yoe : Nat) (h : yoe ≤ 399) : endF yoe ≤ startF yoe + 365 := by
  unfold endF startF
  split <;> omega

theorem leap_of_long_year (yoe : Nat) (h : yoe ≤ 399)
    (hl : startF yoe + 365 ≤ endF yoe) :
    (yoe + 1) % 4 = 0 ∧ ((yoe + 1) % 100 ≠ 0 ∨ yoe + 1 = 400) := by
  unfold endF startF at hl
  split at hl <;> omega

theorem isLeap_shift (era t : Nat) (h1 : 1 ≤ t) (h2 : t ≤ 400) :
    isLeap (era * 400 + t) = true ↔ (t % 4 = 0 ∧ (t % 100 ≠ 0 ∨ t = 400)) := by
  have e4 : (era * 400 + t) % 4 = t % 4 := by omega
  have e100 : (era * 400 + t) % 100 = t % 100 := by omega
  have e400 : (era * 400 + t) % 400 = t % 400 := by omega
  simp only [isLeap, Bool.and_eq_true, beq_iff_eq, Bool.or_eq_true, bne_iff_ne,
    ne_eq, e4, e100, e400]
  omega

theorem civil_inverse (z y m d : Nat) (hz1 : days1601 ≤ z)
    (hz2 : z < daysEnd30828) (he : civilFromDays z = (y, m, d)) :
    1601 ≤ y ∧ y ≤ 30827 ∧ 1 ≤ m ∧ m ≤ 12 ∧ 1 ≤ d ∧ d ≤ daysInMonth y m ∧
    daysFromCivil y m d = z := by
  rw [days1601_eq] at hz1
  rw [daysEnd30828_eq] at hz2
  have hdoeLT : z % 146097 < 146097 := Nat.mod_lt _ (by norm_num)
  obtain ⟨yoe, h399, hb1, hb2⟩ := yoe_cover (z % 146097) hdoeLT
  have hyoe : (z % 146097 - z % 146097 / 1460 + z % 146097 / 36524 -
      z % 146097 / 146096) / 365 = yoe := yoe_extract (z % 146097) yoe h399 hb1 hb2
  have hb1r : 365 * yoe + yoe / 4 - yoe / 100 ≤ z % 146097 := hb1
  have hb2r : z % 146097 ≤ startF yoe + 365 := le_trans hb2 (endF_le yoe h399)
  simp only [civilFromDays, Prod.mk.injEq] at he
  rw [hyoe] at he
  obtain ⟨hy, hm, hd⟩ := he
  set dy := z % 146097 - (365 * yoe + yoe / 4 - yoe / 100) with hdy
  set mp := (5 * dy + 2) / 153 with hmp
  set dd := dy - (153 * mp + 2) / 5 + 1 with hdd
  clear_value dy mp dd
  have hdyLT : dy < 366 := by
    rw [hdy]
    unfold startF at hb2r
    omega
  have hmok := monthOkUpTo_spec 366 monthOkAll dy hdyLT
  simp only [monthOk, Bool.and_eq_true, Bool.or_eq_true, decide_eq_true_eq,
    beq_iff_eq, decide_eq_decide] at hmok
  rw [← hmp, ← hdd] at hmok
  obtain ⟨⟨⟨⟨hmp12, hdd1⟩, hrecon⟩, hiff⟩, hdim⟩ := hmok
  have hdoeEq : z % 146097 = 365 * yoe + yoe / 4 - yoe / 100 + dy := by
    rw [hdy]; omega
  clear hyoe hb2r hdy hmp hdd hdoeLT hdyLT
  by_cases hmp10 : mp < 10
  · rw [if_pos hmp10] at hm hy
    have hmle : ¬(mp + 3 ≤ 2) := by omega
    rw [if_neg hmle] at hy
    subst hm
    subst hd
    subst hy
    have hdy305 : dy < 306 := by
      rcases Nat.lt_or_ge dy 306 with h' | h'
      · exact h'
      · exact absurd (hiff.2 h') (by omega)
    refine ⟨by omega, by omega, by omega, by omega, by omega, ?_, ?_⟩
    · have hdim2 : dd ≤ dimNoLeap mp := by
        rcases hdim with h' | ⟨⟨h', _⟩, _⟩
        · exact h'
        · omega
      have hmon : dimNoLeap mp ≤
          daysInMonth (yoe + z / 146097 * 400 + 0) (mp + 3) := by
        interval_cases mp <;> simp [daysInMonth, dimNoLeap]
      omega
    · simp only [daysFromCivil]
      rw [if_neg hmle, if_pos (show 2 < mp + 3 by omega),
        Nat.add_zero, Nat.add_sub_cancel]
      have h1 : (yoe + z / 146097 * 400 - 0) / 400 = z / 146097 := by omega
      have h2 : (yoe + z / 146097 * 400 - 0) % 400 = yoe := by omega
      have h3 : (153 * mp + 2) / 5 + dd - 1 = dy := by omega
      rw [h1, h2, h3]
      omega
  · rw [if_neg hmp10] at hm hy
    have hmle : mp - 9 ≤ 2 := by omega
    rw [if_pos hmle] at hy
    subst hm
    subst hd
    subst hy
    have hdy306 : 306 ≤ dy := hiff.1 (by omega)
    have hyUB : yoe + z / 146097 * 400 + 1 ≤ 30827 := by
      by_cases hb77 : z / 146097 ≤ 76
      · omega
      · have hb77e : z / 146097 = 77 := by omega
        omega
    refine ⟨by omega, by omega, by omega, by omega, by omega, ?_, ?_⟩
    · rcases Nat.lt_or_ge mp 11 with h10 | h11
      · have h10v : mp = 10 := by omega
        subst h10v
        have hdim2 : dd ≤ dimNoLeap 10 := by
          rcases hdim with h' | ⟨⟨h', _⟩, _⟩
          · exact h'
          · omega
        have hjan : daysInMonth (yoe + z / 146097 * 400 + 1) (10 - 9) = 31 := by
          simp [daysInMonth]
        simp only [dimNoLeap] at hdim2
        omega
      · have hmp11 : mp = 11 := by omega
        subst hmp11
        rcases hdim with h' | ⟨⟨_, h29⟩, h365⟩
        · simp only [dimNoLeap] at h'
          have : daysInMonth (yoe + z / 146097 * 400 + 1) (11 - 9) =
              (if isLeap (yoe + z / 146097 * 400 + 1) = true then 29 else 28) := by
            simp [daysInMonth]
          rw [this]
          split <;> omega
        · have hlong : startF yoe + 365 ≤ endF yoe := by
            unfold startF
            omega
          have hleapc := leap_of_long_year yoe h399 hlong
          have hcomm : yoe + z / 146097 * 400 + 1 =
              z / 146097 * 400 + (yoe + 1) := by omega
          have hleap : isLeap (yoe + z / 146097 * 400 + 1) = true := by
            rw [hcomm]
            exact (isLeap_shift (z / 146097) (yoe + 1) (by omega) (by omega)).mpr
              (by omega)
          have : daysInMonth (yoe + z / 146097 * 400 + 1) (11 - 9) = 29 := by
            simp [daysInMonth, hleap]
          omega
    · simp only [daysFromCivil]
      rw [if_pos hmle, if_neg (show ¬(2 < mp - 9) by omega),
        Nat.sub_add_cancel (show 9 ≤ mp by omega)]
      have h1 : (yoe + z / 146097 * 400 + 1 - 1) / 400 = z / 146097 := by omega
      have h2 : (yoe + z / 146097 * 400 + 1 - 1) % 400 = yoe := by omega
      have h3 : (153 * mp + 2) / 5 + dd - 1 = dy := by omega
      rw [h1, h2, h3]
      omega

theorem ticks_roundtrip (t : Nat)
    (h : t < 10674942 * 86400 * WINDOWS_TICKS_PER_SEC) :
    systemTimeToFileTime (fileTimeToSystemTime t) = some (t / 10000 * 10000) := by
  rcases hcv : civilFromDays (t / WINDOWS_TICKS_PER_SEC / 86400 + days1601)
    with ⟨y, m, d⟩
  have hz1 : days1601 ≤ t / WINDOWS_TICKS_PER_SEC / 86400 + days1601 :=
    Nat.le_add_left _ _
  have hz2 : t / WINDOWS_TICKS_PER_SEC / 86400 + days1601 < daysEnd30828 := by
    rw [days1601_eq, daysEnd30828_eq]
    simp only [WINDOWS_TICKS_PER_SEC] at h ⊢
    omega
  obtain ⟨hy1, hy2, hm1, hm2, hd1, hdm, hrec⟩ :=
    civil_inverse _ y m d hz1 hz2 hcv
  have hcond : 1601 ≤ y ∧ y ≤ 30827 ∧ 1 ≤ m ∧ m ≤ 12 ∧ 1 ≤ d ∧
      d ≤ daysInMonth y m ∧ t / WINDOWS_TICKS_PER_SEC % 86400 / 3600 < 24 ∧
      t / WINDOWS_TICKS_PER_SEC % 86400 % 3600 / 60 < 60 ∧
      t / WINDOWS_TICKS_PER_SEC % 86400 % 60 < 60 ∧
      t % WINDOWS_TICKS_PER_SEC / 10000 < 1000 := by
    refine ⟨hy1, hy2, hm1, hm2, hd1, hdm, ?_, ?_, ?_, ?_⟩ <;>
      (simp only [WINDOWS_TICKS_PER_SEC]; omega)
  simp only [fileTimeToSystemTime, hcv, systemTimeToFileTime]
  rw [if_pos hcond]
  simp only [Option.some.injEq]
  rw [hrec, days1601_eq]
  simp only [WINDOWS_TICKS_PER_SEC]
  omega

theorem unix_roundtrip (t : Int) (h1 : 0 ≤ t + SECS_BETWEEN_1601_1970)
    (h2 : t + SECS_BETWEEN_1601_1970 < 10674942 * 86400) :
    systemtime_to_unix_time (unix_time_to_systemtime t) = t := by
  have hD : SECS_BETWEEN_1601_1970 = (11644473600 : Int) := rfl
  rw [hD] at h1 h2
  have hn : ((t + SECS_BETWEEN_1601_1970) * (WINDOWS_TICKS_PER_SEC : Nat)).toNat =
      (t + 11644473600).toNat * 10000000 := by
    rw [hD]
    simp only [WINDOWS_TICKS_PER_SEC]
    omega
  unfold unix_time_to_systemtime
  rw [hn]
  have hb : (t + 11644473600).toNat * 10000000 <
      10674942 * 86400 * WINDOWS_TICKS_PER_SEC := by
    simp only [WINDOWS_TICKS_PER_SEC]
    omega
  unfold systemtime_to_unix_time systemtime_to_ticks
  rw [ticks_roundtrip _ hb]
  simp only [Option.getD_some]
  rw [hD]
  simp only [WINDOWS_TICKS_PER_SEC]
  omega

/-- C6: converting an epoch-second instant to the platform calendar
    representation and back is the identity for every instant in the
    platform's supported range (1601-01-01 .. 30828-01-01): the conversions
    are exact at one-second resolution. -/
theorem C6_epoch_calendar_roundtrip (t : Int)
    (h1 : 0 ≤ t + SECS_BETWEEN_1601_1970)
    (h2 : t + SECS_BETWEEN_1601_1970 < 10674942 * 86400) :
    systemtime_to_unix_time (unix_time_to_systemtime t) = t :=
  unix_roundtrip t h1 h2

/-- C6 witness: the round trip at the epoch itself. -/
theorem C6_epoch_calendar_roundtrip_witness :
    0 ≤ (0 : Int) + SECS_BETWEEN_1601_1970 ∧
    (0 : Int) + SECS_BETWEEN_1601_1970 < 10674942 * 86400 ∧
    systemtime_to_unix_time (unix_time_to_systemtime 0) = 0 :=
  ⟨by decide, by decide, C6_epoch_calendar_roundtrip 0 (by decide) (by decide)⟩

/-!
## Floating transition rules (claim C7)
-/

/-- number of days in `1..d` of month `y-m` that fall on weekday `wd`. -/
def countWeekday (y m wd d : Nat) : Nat :=
  (List.range d).countP (fun i => dayOfWeek y m (i + 1) == wd)

theorem daysFromCivil_day_affine (y m d : Nat) (h : 1 ≤ d) :
    daysFromCivil y m d = daysFromCivil y m 1 + (d - 1) := by
  simp only [daysFromCivil]
  omega

theorem dayOfWeek_affine (y m d : Nat) (h : 1 ≤ d) :
    dayOfWeek y m d = (dayOfWeek y m 1 + (d - 1)) % 7 := by
  simp only [dayOfWeek]
  rw [daysFromCivil_day_affine y m d h]
  omega

theorem dayOfWeek_lt (y m d : Nat) : dayOfWeek y m d < 7 :=
  Nat.mod_lt _ (by norm_num)

theorem daysInMonth_bounds (y m : Nat) :
    28 ≤ daysInMonth y m ∧ daysInMonth y m ≤ 31 := by
  simp only [daysInMonth]
  split
  · split <;> omega
  · split <;> omega

theorem countWeekday_eq (y m wd d : Nat) :
    countWeekday y m wd d =
      (List.range d).countP (fun i => (dayOfWeek y m 1 + i) % 7 == wd) := by
  simp only [countWeekday]
  apply List.countP_congr
  intro i hi
  rw [dayOfWeek_affine y m (i + 1) (by omega)]
  simp

def nthOk (w1 wd n : Nat) : Bool :=
  let day := 1 + (7 + wd - w1) % 7 + 7 * (n - 1)
  decide (day ≤ 28) &&
  ((w1 + (day - 1)) % 7 == wd) &&
  ((List.range day).countP (fun i => (w1 + i) % 7 == wd) == n)

theorem nthOkAll : ∀ w1, w1 < 7 → ∀ wd, wd < 7 → ∀ n, n < 5 → 1 ≤ n →
    nthOk w1 wd n = true := by decide

def lastOk (w1 wd dim : Nat) : Bool :=
  let wl := (w1 + (dim - 1)) % 7
  let day := dim - (7 + wl - wd) % 7
  decide (1 ≤ day) && decide (day ≤ dim) &&
  ((w1 + (day - 1)) % 7 == wd) &&
  ((List.range dim).countP (fun i => (w1 + i) % 7 == wd) ==
    (List.range day).countP (fun i => (w1 + i) % 7 == wd)) &&
  ((List.range (dim - day)).all (fun j => (w1 + (day + j)) % 7 != wd))

theorem lastOkAll : ∀ w1, w1 < 7 → ∀ wd, wd < 7 → ∀ dim, dim < 32 → 28 ≤ dim →
    lastOk w1 wd dim = true := by decide

/-- C7: `get_transition_date` resolves a floating rule (`wYear = 0`) to the
    `wDay`-th occurrence of weekday `wDayOfWeek` in month `wMonth` of the
    requested year (the result's day carries exactly `wDay` earlier-or-equal
    occurrences of that weekday), and the sentinel `wDay = 5` to the *last*
    occurrence (same count as the whole month, no later occurrence — so in a
    month with five such weekdays it is the fifth); an absolute rule
    (`wYear ≠ 0`) is returned verbatim with no year substitution. -/
theorem C7_floating_rule_resolution (year : Nat) (src : SystemTime)
    (hm1 : 1 ≤ src.wMonth) (hm2 : src.wMonth ≤ 12)
    (hwd : src.wDayOfWeek < 7) (hn1 : 1 ≤ src.wDay) (hn5 : src.wDay ≤ 5) :
    (src.wYear ≠ 0 → get_transition_date year src = src) ∧
    (src.wYear = 0 →
      (get_transition_date year src).wYear = year ∧
      (get_transition_date year src).wMonth = src.wMonth ∧
      1 ≤ (get_transition_date year src).wDay ∧
      (get_transition_date year src).wDay ≤ daysInMonth year src.wMonth ∧
      dayOfWeek year src.wMonth (get_transition_date year src).wDay =
        src.wDayOfWeek ∧
      (src.wDay ≤ 4 →
        countWeekday year src.wMonth src.wDayOfWeek
          (get_transition_date year src).wDay = src.wDay) ∧
      (src.wDay = 5 →
        countWeekday year src.wMonth src.wDayOfWeek
            (get_transition_date year src).wDay =
          countWeekday year src.wMonth src.wDayOfWeek
            (daysInMonth year src.wMonth) ∧
        ∀ e, (get_transition_date year src).wDay < e →
          e ≤ daysInMonth year src.wMonth →
          dayOfWeek year src.wMonth e ≠ src.wDayOfWeek)) := by
  constructor
  · intro h
    simp [get_transition_date, h]
  · intro h0
    have hdimB := daysInMonth_bounds year src.wMonth
    have hw1 := dayOfWeek_lt year src.wMonth 1
    simp only [get_transition_date, h0, ne_eq, not_true_eq_false, if_false]
    by_cases h5 : src.wDay = 5
    · rw [if_pos (by simp [h5] : (src.wDay == 5) = true)]
      have hl := lastOkAll (dayOfWeek year src.wMonth 1) hw1 src.wDayOfWeek hwd
        (daysInMonth year src.wMonth) (by omega) (by omega)
      rw [dayOfWeek_affine year src.wMonth (daysInMonth year src.wMonth) (by omega)]
      simp only [lastOk, Bool.and_eq_true, decide_eq_true_eq, beq_iff_eq,
        List.all_eq_true, List.mem_range, bne_iff_ne, ne_eq] at hl
      obtain ⟨⟨⟨⟨hl1, hl2⟩, hl3⟩, hl4⟩, hl5⟩ := hl
      refine ⟨trivial, trivial, hl1, hl2, ?_, fun hq => absurd h5 (by omega),
        fun _ => ⟨?_, ?_⟩⟩
      · rw [dayOfWeek_affine year src.wMonth _ hl1]
        exact hl3
      · rw [countWeekday_eq, countWeekday_eq]
        omega
      · intro e he1 he2
        rw [dayOfWeek_affine year src.wMonth e (by omega)]
        have := hl5 (e - 1 -
          (daysInMonth year src.wMonth -
            (7 + (dayOfWeek year src.wMonth 1 +
              (daysInMonth year src.wMonth - 1)) % 7 - src.wDayOfWeek) % 7)) (by omega)
        intro hc
        apply this
        rw [← hc]
        congr 1
        omega
    · rw [if_neg (by simp [h5] : ¬((src.wDay == 5) = true))]
      have hn := nthOkAll (dayOfWeek year src.wMonth 1) hw1 src.wDayOfWeek hwd
        src.wDay (by omega) hn1
      simp only [nthOk, Bool.and_eq_true, decide_eq_true_eq, beq_iff_eq] at hn
      obtain ⟨⟨hn1b, hn2⟩, hn3⟩ := hn
      have hday1 : (1 : Nat) ≤ 1 + (7 + src.wDayOfWeek -
          dayOfWeek year src.wMonth 1) % 7 + 7 * (src.wDay - 1) := by omega
      have hday2 : 1 + (7 + src.wDayOfWeek - dayOfWeek year src.wMonth 1) % 7 +
          7 * (src.wDay - 1) ≤ daysInMonth year src.wMonth :=
        le_trans hn1b hdimB.1
      refine ⟨trivial, trivial, hday1, hday2, ?_, fun _ => ?_,
        fun hq => absurd hq h5⟩
      · rw [dayOfWeek_affine year src.wMonth _ hday1]
        exact hn2
      · rw [countWeekday_eq]
        exact hn3

/-- C7 witness: the last-Sunday rule for October 2021 (a month with five
    Sundays) resolves to October 31, the fifth Sunday. -/
theorem C7_floating_rule_resolution_witness :
    (1 ≤ (⟨0, 10, 0, 5, 2, 0, 0, 0⟩ : SystemTime).wMonth ∧
     (⟨0, 10, 0, 5, 2, 0, 0, 0⟩ : SystemTime).wMonth ≤ 12 ∧
     (⟨0, 10, 0, 5, 2, 0, 0, 0⟩ : SystemTime).wDayOfWeek < 7 ∧
     1 ≤ (⟨0, 10, 0, 5, 2, 0, 0, 0⟩ : SystemTime).wDay ∧
     (⟨0, 10, 0, 5, 2, 0, 0, 0⟩ : SystemTime).wDay ≤ 5) ∧
    (get_transition_date 2021 ⟨0, 10, 0, 5, 2, 0, 0, 0⟩).wDay = 31 ∧
    countWeekday 2021 10 0 31 = 5 ∧
    ((⟨0, 10, 0, 5, 2, 0, 0, 0⟩ : SystemTime).wYear ≠ 0 →
      get_transition_date 2021 ⟨0, 10, 0, 5, 2, 0, 0, 0⟩ =
        ⟨0, 10, 0, 5, 2, 0, 0, 0⟩) ∧
    ((⟨0, 10, 0, 5, 2, 0, 0, 0⟩ : SystemTime).wYear = 0 →
      (get_transition_date 2021 ⟨0, 10, 0, 5, 2, 0, 0, 0⟩).wYear = 2021 ∧
      (get_transition_date 2021 ⟨0, 10, 0, 5, 2, 0, 0, 0⟩).wMonth =
        (⟨0, 10, 0, 5, 2, 0, 0, 0⟩ : SystemTime).wMonth ∧
      1 ≤ (get_transition_date 2021 ⟨0, 10, 0, 5, 2, 0, 0, 0⟩).wDay ∧
      (get_transition_date 2021 ⟨0, 10, 0, 5, 2, 0, 0, 0⟩).wDay ≤
        daysInMonth 2021 (⟨0, 10, 0, 5, 2, 0, 0, 0⟩ : SystemTime).wMonth ∧
      dayOfWeek 2021 (⟨0, 10, 0, 5, 2, 0, 0, 0⟩ : SystemTime).wMonth
          (get_transition_date 2021 ⟨0, 10, 0, 5, 2, 0, 0, 0⟩).wDay =
        (⟨0, 10, 0, 5, 2, 0, 0, 0⟩ : SystemTime).wDayOfWeek ∧
      ((⟨0, 10, 0, 5, 2, 0, 0, 0⟩ : SystemTime).wDay ≤ 4 →
        countWeekday 2021 (⟨0, 10, 0, 5, 2, 0, 0, 0⟩ : SystemTime).wMonth
          (⟨0, 10, 0, 5, 2, 0, 0, 0⟩ : SystemTime).wDayOfWeek
          (get_transition_date 2021 ⟨0, 10, 0, 5, 2, 0, 0, 0⟩).wDay =
          (⟨0, 10, 0, 5, 2, 0, 0, 0⟩ : SystemTime).wDay) ∧
      ((⟨0, 10, 0, 5, 2, 0, 0, 0⟩ : SystemTime).wDay = 5 →
        countWeekday 2021 (⟨0, 10, 0, 5, 2, 0, 0, 0⟩ : SystemTime).wMonth
            (⟨0, 10, 0, 5, 2, 0, 0, 0⟩ : SystemTime).wDayOfWeek
            (get_transition_date 2021 ⟨0, 10, 0, 5, 2, 0, 0, 0⟩).wDay =
          countWeekday 2021 (⟨0, 10, 0, 5, 2, 0, 0, 0⟩ : SystemTime).wMonth
            (⟨0, 10, 0, 5, 2, 0, 0, 0⟩ : SystemTime).wDayOfWeek
            (daysInMonth 2021 (⟨0, 10, 0, 5, 2, 0, 0, 0⟩ : SystemTime).wMonth) ∧
        ∀ e, (get_transition_date 2021 ⟨0, 10, 0, 5, 2, 0, 0, 0⟩).wDay < e →
          e ≤ daysInMonth 2021 (⟨0, 10, 0, 5, 2, 0, 0, 0⟩ : SystemTime).wMonth →
          dayOfWeek 2021 (⟨0, 10, 0, 5, 2, 0, 0, 0⟩ : SystemTime).wMonth e ≠
            (⟨0, 10, 0, 5, 2, 0, 0, 0⟩ : SystemTime).wDayOfWeek)) :=
  ⟨by decide, by decide, by decide,
    (C7_floating_rule_resolution 2021 ⟨0, 10, 0, 5, 2, 0, 0, 0⟩ (by decide)
      (by decide) (by decide) (by decide) (by decide)).1,
    (C7_floating_rule_resolution 2021 ⟨0, 10, 0, 5, 2, 0, 0, 0⟩ (by decide)
      (by decide) (by decide) (by decide) (by decide)).2⟩

/-!
## The zone record cache and the public query surface

The cache of `windows.cpp` is a process-global `unordered_map` guarded by a
reader/writer lock, plus the `next_flush` deadline of a steady clock. The
shallow embedding threads the state explicitly: the clock value and the
enumeration the platform would deliver are parameters, and the `Bool` in the
results models a propagating `std::runtime_error` (the `std::out_of_range` of
`map::at`, which `time_zone_by_name` catches, is an `Option`). The
`standard_to_windows` table lives in `windows_zones.hpp`, which is not part
of the source; following the spec it is an abstract partial mapping, total
for "UTC".
-/

/-- embedding of `key_to_string`: narrow the registry key name of a record;
    the C++ buffer is `char[128]` and `sizeof(buf) < wlen + 1` throws
    `std::runtime_error`; the name "Coordinated Universal Time" is
    canonicalized to "UTC". -/
def key_to_string (dtzi : DynamicTimeZoneInformation) : Except Unit String :=
  if MAX_KEY_LENGTH < dtzi.keyName.length + 1 then .error ()
  else if dtzi.keyName = "Coordinated Universal Time" then .ok "UTC"
  else .ok dtzi.keyName

/-- the shared timezone cache: the map (an association list with
    insert-or-assign semantics) and the `next_flush` deadline (steady-clock
    seconds). -/
structure CacheState where
  cache : List (String × DynamicTimeZoneInformation)
  nextFlush : Nat
deriving DecidableEq, Repr

/-- `cache[k] = v` of `std::unordered_map`: assign if present, append if
    not. -/
def cacheInsert (c : List (String × DynamicTimeZoneInformation)) (k : String)
    (v : DynamicTimeZoneInformation) :
    List (String × DynamicTimeZoneInformation) :=
  if c.any (fun p => p.1 == k) then
    c.map (fun p => if p.1 == k then (k, v) else p)
  else c ++ [(k, v)]

/-- the enumeration loop of `repopulate_timezone_cache`: insert every record
    the platform reports; a throwing `key_to_string` aborts the loop, leaving
    the insertions made so far (the `Bool` records that it threw). -/
def insertEnum (c : List (String × DynamicTimeZoneInformation)) :
    List DynamicTimeZoneInformation →
    List (String × DynamicTimeZoneInformation) × Bool
  | [] => (c, false)
  | d :: rest =>
    match key_to_string d with
    | .error _ => (c, true)
    | .ok k => insertEnum (cacheInsert c k d) rest

/-- embedding of `repopulate_timezone_cache` with the platform enumeration
    passed as `enum`: under the exclusive lock, re-check the deadline, clear
    the cache, set the new deadline (the C++ assigns `next_flush` before the
    loop), then run the enumeration loop; an excepted loop leaves the partial
    map behind (the lock guard only releases the lock). -/
def repopulate_timezone_cache (st : CacheState) (current_time : Nat)
    (enum : List DynamicTimeZoneInformation) : CacheState × Bool :=
  if current_time < st.nextFlush then (st, false)
  else
    let r := insertEnum [] enum
    ({ cache := r.1, nextFlush := current_time + CACHE_INVALIDATION_TIMEOUT },
      r.2)

/-- embedding of `time_zone_by_native_name`: refresh when the deadline has
    passed, then read the entry under the shared lock (`none` models the
    `out_of_range` of `cache.at`, the `Bool` a propagating
    `runtime_error`). -/
def time_zone_by_native_name (st : CacheState) (current_time : Nat)
    (enum : List DynamicTimeZoneInformation) (native_name : String) :
    CacheState × Bool × Option DynamicTimeZoneInformation :=
  let p := if st.nextFlush < current_time then
      repopulate_timezone_cache st current_time enum
    else (st, false)
  if p.2 then (p.1, true, none)
  else (p.1, false, p.1.cache.lookup native_name)

/-- embedding of `time_zone_by_name`; the `standard_to_windows` table of
    `windows_zones.hpp` (not in the source) is the abstract mapping `map`.
    `out_of_range` from either lookup is caught and becomes `none`. -/
def time_zone_by_name (map : String → Option String) (st : CacheState)
    (current_time : Nat) (enum : List DynamicTimeZoneInformation)
    (name : String) :
    CacheState × Bool × Option DynamicTimeZoneInformation :=
  match map name with
  | none => (st, false, none)
  | some native => time_zone_by_native_name st current_time enum native

/-- embedding of `offset_at_instant`: `Except.error` is a propagating
    `runtime_error`, `Except.ok INT_MAX` the documented sentinel. -/
def offset_at_instant (map : String → Option String) (st : CacheState)
    (current_time : Nat) (enum : List DynamicTimeZoneInformation)
    (zone_name : String) (epoch_sec : Int) : CacheState × Except Unit Int :=
  match time_zone_by_name map st current_time enum zone_name with
  | (st2, true, _) => (st2, .error ())
  | (st2, false, none) => (st2, .ok INT_MAX)
  | (st2, false, some dtzi) =>
    (st2, .ok (offset_at_systime dtzi (unix_time_to_systemtime epoch_sec)))

/-- model of `SystemTimeToTzSpecificLocalTimeEx`: UTC to local wall clock,
    applying the bias pair of the rules active at the UTC instant. -/
def systemTimeToTzSpecificLocalTime (dtzi : DynamicTimeZoneInformation)
    (utc : SystemTime) : SystemTime :=
  let bias := dtzi.tzi.Bias +
    (if is_daylight_time dtzi.tzi utc then dtzi.tzi.DaylightBias
     else dtzi.tzi.StandardBias);
  fileTimeToSystemTime
    ((systemtime_to_ticks utc : Int) -
      bias * 60 * (WINDOWS_TICKS_PER_SEC : Nat)).toNat

/-- model of `TzSpecificLocalTimeToSystemTimeEx`, per its documented
    disambiguation policy: prefer the standard-time interpretation when it
    round-trips to the given wall clock, else the daylight interpretation
    when it round-trips, else (a skipped local time) convert as if standard
    time. -/
def tzSpecificLocalTimeToSystemTime (dtzi : DynamicTimeZoneInformation)
    (localtime : SystemTime) : SystemTime :=
  let uStd := fileTimeToSystemTime
    ((systemtime_to_ticks localtime : Int) +
      (dtzi.tzi.Bias + dtzi.tzi.StandardBias) * 60 *
        (WINDOWS_TICKS_PER_SEC : Nat)).toNat
  let uDst := fileTimeToSystemTime
    ((systemtime_to_ticks localtime : Int) +
      (dtzi.tzi.Bias + dtzi.tzi.DaylightBias) * 60 *
        (WINDOWS_TICKS_PER_SEC : Nat)).toNat
  if systemTimeToTzSpecificLocalTime dtzi uStd = localtime then uStd
  else if systemTimeToTzSpecificLocalTime dtzi uDst = localtime then uDst
  else uStd

/-- embedding of `offset_at_datetime`: the result pair is (return value,
    final value of the `*offset` out-parameter, whose initial value is the
    `offset` argument). -/
def offset_at_datetime (map : String → Option String) (st : CacheState)
    (current_time : Nat) (enum : List DynamicTimeZoneInformation)
    (zone_name : String) (epoch_sec : Int) (offset : Int) :
    CacheState × Except Unit (Int × Int) :=
  match time_zone_by_name map st current_time enum zone_name with
  | (st2, true, _) => (st2, .error ())
  | (st2, false, none) => (st2, .ok (INT_MAX, offset))
  | (st2, false, some dtzi) =>
    let localtime := unix_time_to_systemtime epoch_sec
    let utctime := tzSpecificLocalTimeToSystemTime dtzi localtime
    let offset2 := offset_at_systime dtzi utctime
    let adjusted := systemTimeToTzSpecificLocalTime dtzi utctime
    (st2, .ok (systemtime_to_unix_time adjusted - epoch_sec, offset2))

/-- a well-formed enumeration record reusing the Eastern rules. -/
def sampleZone : DynamicTimeZoneInformation :=
  { keyName := "Sample Standard Time", tzi := easternTzi, perYearOk := true }

/-- a malformed record whose 128-character registry key makes
    `key_to_string` throw. -/
def longKeyZone : DynamicTimeZoneInformation :=
  { keyName := String.mk (List.replicate 128 'x'), tzi := easternTzi,
    perYearOk := true }

/-- the genuine UTC record: zero biases, no daylight rule. -/
def utcDtzi : DynamicTimeZoneInformation :=
  { keyName := "UTC",
    tzi := { Bias := 0, StandardDate := ⟨0, 0, 0, 0, 0, 0, 0, 0⟩,
             StandardBias := 0, DaylightDate := ⟨0, 0, 0, 0, 0, 0, 0, 0⟩,
             DaylightBias := 0 },
    perYearOk := true }

/-- a name mapping that resolves only "UTC" (to the native sentinel key). -/
def utcOnlyMap (s : String) : Option String :=
  if s = "UTC" then some "UTC" else none

/-- a name mapping with "America/New_York" resolving to the Eastern key. -/
def eastMap (s : String) : Option String :=
  if s = "America/New_York" then some "Eastern Standard Time" else none

/-- whether `key_to_string` succeeds on a record. -/
def keyOk (d : DynamicTimeZoneInformation) : Bool :=
  match key_to_string d with
  | .ok _ => true
  | .error _ => false

set_option maxRecDepth 10000 in
/-- C4: the refresh is NOT all-or-nothing. On an enumeration whose second
    record carries a 128-character registry key, `repopulate_timezone_cache`
    clears the old cache, inserts the first record, advances `next_flush`,
    and then throws: the resulting state is neither the original one nor a
    completed rebuild — the shared cache is left partially updated. -/
theorem C4_refresh_not_atomic :
    repopulate_timezone_cache ⟨[("Old", easternDtzi)], 0⟩ 1
        [sampleZone, longKeyZone] =
      (⟨[("Sample Standard Time", sampleZone)], 301⟩, true) ∧
    ¬((repopulate_timezone_cache ⟨[("Old", easternDtzi)], 0⟩ 1
          [sampleZone, longKeyZone]).1 = ⟨[("Old", easternDtzi)], 0⟩ ∨
      (repopulate_timezone_cache ⟨[("Old", easternDtzi)], 0⟩ 1
          [sampleZone, longKeyZone]).2 = false) := by
  constructor
  · rfl
  · decide

/-- the enumeration loop does not throw when every key converts. -/
theorem insertEnum_ok (enum : List DynamicTimeZoneInformation)
    (h : ∀ d ∈ enum, keyOk d = true) :
    ∀ c, (insertEnum c enum).2 = false := by
  induction enum with
  | nil => intro c; rfl
  | cons d rest ih =>
    intro c
    have hd := h d (by simp)
    cases hk : key_to_string d with
    | error e =>
      exfalso
      unfold keyOk at hd
      rw [hk] at hd
      simp at hd
    | ok k =>
      simp only [insertEnum, hk]
      exact ih (fun x hx => h x (by simp [hx])) (cacheInsert c k d)

/-- C5: on a lookup whose clock has passed `next_flush`, the cache is
    cleared, rebuilt from the full enumeration and stamped
    `now + CACHE_INVALIDATION_TIMEOUT`, and the entry is then read from the
    rebuilt map; on a lookup before the deadline the state is unchanged and
    the entry is read from the existing map. The deadline is re-checked under
    the exclusive lock, so any further refresh attempt within the new window
    (a concurrent refresher that lost the race) is a no-op. -/
theorem C5_refresh_on_lookup (st : CacheState) (now : Nat)
    (enum : List DynamicTimeZoneInformation) (native : String)
    (hg : ∀ d ∈ enum, keyOk d = true) :
    (st.nextFlush < now →
      time_zone_by_native_name st now enum native =
        (⟨(insertEnum [] enum).1, now + CACHE_INVALIDATION_TIMEOUT⟩, false,
          ((insertEnum [] enum).1).lookup native)) ∧
    (¬st.nextFlush < now →
      time_zone_by_native_name st now enum native =
        (st, false, st.cache.lookup native)) ∧
    (∀ now2 enum2, st.nextFlush < now →
      now2 < now + CACHE_INVALIDATION_TIMEOUT →
      repopulate_timezone_cache (time_zone_by_native_name st now enum native).1
          now2 enum2 =
        ((time_zone_by_native_name st now enum native).1, false)) := by
  have hth : (insertEnum [] enum).2 = false := insertEnum_ok enum hg []
  have hmain : st.nextFlush < now →
      time_zone_by_native_name st now enum native =
        (⟨(insertEnum [] enum).1, now + CACHE_INVALIDATION_TIMEOUT⟩, false,
          ((insertEnum [] enum).1).lookup native) := by
    intro h
    unfold time_zone_by_native_name repopulate_timezone_cache
    rw [if_pos h, if_neg (show ¬(now < st.nextFlush) by omega)]
    simp [hth]
  refine ⟨hmain, ?_, ?_⟩
  · intro h
    unfold time_zone_by_native_name
    rw [if_neg h]
    simp
  · intro now2 enum2 h hlt
    rw [hmain h]
    unfold repopulate_timezone_cache
    rw [if_pos (by simpa using hlt)]

/-- C5 witness: a stale singleton-state lookup refreshes and reads the new
    entry; the refreshed state rejects an immediate second refresh. -/
theorem C5_refresh_on_lookup_witness :
    (∀ d ∈ [sampleZone], keyOk d = true) ∧
    ((⟨[], 10⟩ : CacheState).nextFlush < 11 →
      time_zone_by_native_name ⟨[], 10⟩ 11 [sampleZone] "Sample Standard Time" =
        (⟨(insertEnum [] [sampleZone]).1, 11 + CACHE_INVALIDATION_TIMEOUT⟩,
          false,
          ((insertEnum [] [sampleZone]).1).lookup "Sample Standard Time")) ∧
    (¬(⟨[], 10⟩ : CacheState).nextFlush < 11 →
      time_zone_by_native_name ⟨[], 10⟩ 11 [sampleZone] "Sample Standard Time" =
        (⟨[], 10⟩, false,
          (⟨[], 10⟩ : CacheState).cache.lookup "Sample Standard Time")) ∧
    (∀ now2 enum2, (⟨[], 10⟩ : CacheState).nextFlush < 11 →
      now2 < 11 + CACHE_INVALIDATION_TIMEOUT →
      repopulate_timezone_cache
          (time_zone_by_native_name ⟨[], 10⟩ 11 [sampleZone]
            "Sample Standard Time").1 now2 enum2 =
        ((time_zone_by_native_name ⟨[], 10⟩ 11 [sampleZone]
            "Sample Standard Time").1, false)) :=
  ⟨by decide,
    C5_refresh_on_lookup ⟨[], 10⟩ 11 [sampleZone] "Sample Standard Time"
      (by decide)⟩

/-- the early-exit guard of the evaluator, shared by several proofs. -/
theorem is_daylight_time_month0 (tzi : TimeZoneInformation)
    (time : SystemTime) (h : tzi.StandardDate.wMonth = 0) :
    is_daylight_time tzi time = false := by
  unfold is_daylight_time
  simp [h]

/-- a no-DST record with zero biases always yields offset 0. -/
theorem offset_at_systime_zero (r : DynamicTimeZoneInformation)
    (st : SystemTime) (hok : r.perYearOk = true) (hb : r.tzi.Bias = 0)
    (hsb : r.tzi.StandardBias = 0) (hm : r.tzi.StandardDate.wMonth = 0) :
    offset_at_systime r st = 0 := by
  unfold offset_at_systime getTimeZoneInformationForYear
  rw [hok]
  simp only [if_true, is_daylight_time_month0 r.tzi st hm, Bool.false_eq_true,
    if_false, hb, hsb]
  norm_num

/-- C9 counterexample: with the cache empty and fresh (the deadline not yet
    passed, so no refresh runs), the query for "UTC" returns the sentinel
    `INT_MAX`, not offset 0 — resolution of "UTC" does depend on the cache
    state. -/
theorem C9_counterexample :
    offset_at_instant utcOnlyMap ⟨[], 100⟩ 50 [] "UTC" 0 =
      (⟨[], 100⟩, .ok INT_MAX) ∧ INT_MAX ≠ 0 := by
  constructor
  · rfl
  · decide

/-- C9 (amended): whenever the (possibly refreshed) cache lookup for "UTC"
    yields the platform's UTC record — zero bias, zero standard bias, no
    daylight rule, year-lookup succeeding — `offset_at_instant` returns
    offset 0, at every instant. -/
theorem C9_utc_offset_zero (map : String → Option String) (st : CacheState)
    (now : Nat) (enum : List DynamicTimeZoneInformation) (epoch : Int)
    (r : DynamicTimeZoneInformation) (st2 : CacheState)
    (hlook : time_zone_by_name map st now enum "UTC" = (st2, false, some r))
    (hok : r.perYearOk = true) (hb : r.tzi.Bias = 0)
    (hsb : r.tzi.StandardBias = 0) (hm : r.tzi.StandardDate.wMonth = 0) :
    offset_at_instant map st now enum "UTC" epoch = (st2, .ok 0) := by
  unfold offset_at_instant
  rw [hlook]
  simp [offset_at_systime_zero r (unix_time_to_systemtime epoch) hok hb hsb hm]

/-- C9 witness: with the UTC record cached, the query returns offset 0. -/
theorem C9_utc_offset_zero_witness :
    time_zone_by_name utcOnlyMap ⟨[("UTC", utcDtzi)], 100⟩ 50 [] "UTC" =
      (⟨[("UTC", utcDtzi)], 100⟩, false, some utcDtzi) ∧
    offset_at_instant utcOnlyMap ⟨[("UTC", utcDtzi)], 100⟩ 50 [] "UTC"
        123456789 =
      (⟨[("UTC", utcDtzi)], 100⟩, .ok 0) :=
  ⟨rfl, C9_utc_offset_zero utcOnlyMap ⟨[("UTC", utcDtzi)], 100⟩ 50 []
    123456789 utcDtzi ⟨[("UTC", utcDtzi)], 100⟩ rfl rfl rfl rfl rfl⟩

/-- C10: for an unmappable zone identifier, `offset_at_datetime` returns the
    sentinel `INT_MAX` and the caller-supplied `*offset` location keeps its
    initial value (and the cache state is untouched): the error exit happens
    before any write. -/
theorem C10_unmappable_offset_untouched (map : String → Option String)
    (st : CacheState) (now : Nat) (enum : List DynamicTimeZoneInformation)
    (name : String) (epoch : Int) (offsetIn : Int) (h : map name = none) :
    offset_at_datetime map st now enum name epoch offsetIn =
      (st, .ok (INT_MAX, offsetIn)) := by
  unfold offset_at_datetime time_zone_by_name
  rw [h]

/-- C10 witness: the unmappable name "Not/AZone" leaves the offset slot at
    its initial value 77. -/
theorem C10_unmappable_offset_untouched_witness :
    utcOnlyMap "Not/AZone" = none ∧
    offset_at_datetime utcOnlyMap ⟨[], 100⟩ 50 [] "Not/AZone" 0 77 =
      (⟨[], 100⟩, .ok (INT_MAX, 77)) :=
  ⟨rfl, C10_unmappable_offset_untouched utcOnlyMap ⟨[], 100⟩ 50 []
    "Not/AZone" 0 77 rfl⟩

/-- a tick multiple of one second round-trips through the calendar split. -/
theorem sticks_of_ft (s : Nat) (h : s < 10674942 * 86400) :
    systemtime_to_ticks (fileTimeToSystemTime (s * WINDOWS_TICKS_PER_SEC)) =
      s * WINDOWS_TICKS_PER_SEC := by
  unfold systemtime_to_ticks
  rw [ticks_roundtrip (s * WINDOWS_TICKS_PER_SEC)
    (by simp only [WINDOWS_TICKS_PER_SEC]; omega)]
  simp only [Option.getD_some, WINDOWS_TICKS_PER_SEC]
  omega

/-- the epoch value of a calendar time built from whole seconds. -/
theorem unix_of_ft (s : Nat) (h : s < 10674942 * 86400) :
    systemtime_to_unix_time (fileTimeToSystemTime (s * WINDOWS_TICKS_PER_SEC)) =
      (s : Int) - 11644473600 := by
  unfold systemtime_to_unix_time
  rw [sticks_of_ft s h]
  simp only [WINDOWS_TICKS_PER_SEC, SECS_BETWEEN_1601_1970]
  rw [Nat.mul_div_cancel _ (by norm_num)]

/-- `fileTimeToSystemTime` is injective on whole seconds in range. -/
theorem ft_inj (s1 s2 : Nat) (h1 : s1 < 10674942 * 86400)
    (h2 : s2 < 10674942 * 86400)
    (he : fileTimeToSystemTime (s1 * WINDOWS_TICKS_PER_SEC) =
      fileTimeToSystemTime (s2 * WINDOWS_TICKS_PER_SEC)) : s1 = s2 := by
  have := congrArg systemtime_to_ticks he
  rw [sticks_of_ft s1 h1, sticks_of_ft s2 h2] at this
  simp only [WINDOWS_TICKS_PER_SEC] at this
  omega

/-- shape of the UTC-to-local conversion on a whole-second instant with sane
    bias pairs: a shift by the applicable bias pair, in seconds. -/
theorem render_shape (dtzi : DynamicTimeZoneInformation) (s : Nat)
    (hs1 : 86400 ≤ s) (hs2 : s < 10674942 * 86400)
    (hb1 : (dtzi.tzi.Bias + dtzi.tzi.StandardBias) * 60 ≤ 86400)
    (hb2 : -86400 ≤ (dtzi.tzi.Bias + dtzi.tzi.StandardBias) * 60)
    (hb3 : (dtzi.tzi.Bias + dtzi.tzi.DaylightBias) * 60 ≤ 86400)
    (hb4 : -86400 ≤ (dtzi.tzi.Bias + dtzi.tzi.DaylightBias) * 60) :
    systemTimeToTzSpecificLocalTime dtzi
        (fileTimeToSystemTime (s * WINDOWS_TICKS_PER_SEC)) =
      fileTimeToSystemTime
        ((((s : Int) - (dtzi.tzi.Bias +
            (if is_daylight_time dtzi.tzi
                (fileTimeToSystemTime (s * WINDOWS_TICKS_PER_SEC)) then
              dtzi.tzi.DaylightBias
            else dtzi.tzi.StandardBias)) * 60).toNat) *
          WINDOWS_TICKS_PER_SEC) := by
  unfold systemTimeToTzSpecificLocalTime
  rw [sticks_of_ft s hs2]
  refine congrArg fileTimeToSystemTime ?_
  cases hD : is_daylight_time dtzi.tzi
    (fileTimeToSystemTime (s * WINDOWS_TICKS_PER_SEC))
  · simp only [Bool.false_eq_true, if_false]
    simp only [WINDOWS_TICKS_PER_SEC] at hb1 hb2 ⊢
    omega
  · simp only [if_true]
    simp only [WINDOWS_TICKS_PER_SEC] at hb3 hb4 ⊢
    omega

/-- the given wall-clock value denotes a representable local time of the
    zone: at least one of the two bias interpretations converts back to it.
    A normal local time has exactly one valid interpretation, a repeated one
    has both, a skipped one has none. -/
def locallyRepresentable (dtzi : DynamicTimeZoneInformation)
    (localtime : SystemTime) : Prop :=
  systemTimeToTzSpecificLocalTime dtzi (fileTimeToSystemTime
    ((systemtime_to_ticks localtime : Int) +
      (dtzi.tzi.Bias + dtzi.tzi.StandardBias) * 60 *
        (WINDOWS_TICKS_PER_SEC : Nat)).toNat) = localtime ∨
  systemTimeToTzSpecificLocalTime dtzi (fileTimeToSystemTime
    ((systemtime_to_ticks localtime : Int) +
      (dtzi.tzi.Bias + dtzi.tzi.DaylightBias) * 60 *
        (WINDOWS_TICKS_PER_SEC : Nat)).toNat) = localtime

/-- C8 (amended): for a known zone and an in-range input,
    `offset_at_datetime` returns the difference in seconds between the
    round-tripped local value (local to UTC by the platform disambiguation,
    then UTC back to local) and the original input, and that difference is
    zero IFF the input denotes a representable (normal or repeated) local
    wall-clock time — equivalently, it is non-zero precisely for inputs in a
    skipped interval. For a repeated time the disambiguation picks one of the
    valid UTC instants, so the correction is 0 there, not non-zero as the
    original claim stated. -/
theorem C8_local_correction (map : String → Option String)
    (st st2 : CacheState) (now : Nat)
    (enum : List DynamicTimeZoneInformation) (name : String)
    (epoch offsetIn : Int) (dtzi : DynamicTimeZoneInformation)
    (hlook : time_zone_by_name map st now enum name = (st2, false, some dtzi))
    (hep1 : 2 * 86400 ≤ epoch + SECS_BETWEEN_1601_1970)
    (hep2 : epoch + SECS_BETWEEN_1601_1970 + 2 * 86400 < 10674942 * 86400)
    (hb1 : (dtzi.tzi.Bias + dtzi.tzi.StandardBias) * 60 ≤ 86400)
    (hb2 : -86400 ≤ (dtzi.tzi.Bias + dtzi.tzi.StandardBias) * 60)
    (hb3 : (dtzi.tzi.Bias + dtzi.tzi.DaylightBias) * 60 ≤ 86400)
    (hb4 : -86400 ≤ (dtzi.tzi.Bias + dtzi.tzi.DaylightBias) * 60) :
    offset_at_datetime map st now enum name epoch offsetIn =
      (st2, .ok (systemtime_to_unix_time (systemTimeToTzSpecificLocalTime dtzi
          (tzSpecificLocalTimeToSystemTime dtzi
            (unix_time_to_systemtime epoch))) - epoch,
        offset_at_systime dtzi (tzSpecificLocalTimeToSystemTime dtzi
          (unix_time_to_systemtime epoch)))) ∧
    (systemtime_to_unix_time (systemTimeToTzSpecificLocalTime dtzi
        (tzSpecificLocalTimeToSystemTime dtzi
          (unix_time_to_systemtime epoch))) - epoch = 0 ↔
      locallyRepresentable dtzi (unix_time_to_systemtime epoch)) := by
  have hD : SECS_BETWEEN_1601_1970 = (11644473600 : Int) := rfl
  rw [hD] at hep1 hep2
  constructor
  · unfold offset_at_datetime
    rw [hlook]
  · set n := (epoch + 11644473600).toNat with hndef
    have hnn : (n : Int) = epoch + 11644473600 := by omega
    have hnR : n < 10674942 * 86400 := by omega
    have hn1 : 2 * 86400 ≤ n := by omega
    have hL : unix_time_to_systemtime epoch =
        fileTimeToSystemTime (n * WINDOWS_TICKS_PER_SEC) := by
      unfold unix_time_to_systemtime
      refine congrArg fileTimeToSystemTime ?_
      rw [hD]
      simp only [WINDOWS_TICKS_PER_SEC]
      omega
    rw [hL]
    simp only [tzSpecificLocalTimeToSystemTime, locallyRepresentable]
    rw [sticks_of_ft n hnR]
    set sStd := ((n : Int) +
      (dtzi.tzi.Bias + dtzi.tzi.StandardBias) * 60).toNat with hsStdDef
    set sDst := ((n : Int) +
      (dtzi.tzi.Bias + dtzi.tzi.DaylightBias) * 60).toNat with hsDstDef
    have hstdE : (((n * WINDOWS_TICKS_PER_SEC : Nat) : Int) +
        (dtzi.tzi.Bias + dtzi.tzi.StandardBias) * 60 *
          (WINDOWS_TICKS_PER_SEC : Nat)).toNat =
        sStd * WINDOWS_TICKS_PER_SEC := by
      rw [hsStdDef]
      simp only [WINDOWS_TICKS_PER_SEC]
      omega
    have hdstE : (((n * WINDOWS_TICKS_PER_SEC : Nat) : Int) +
        (dtzi.tzi.Bias + dtzi.tzi.DaylightBias) * 60 *
          (WINDOWS_TICKS_PER_SEC : Nat)).toNat =
        sDst * WINDOWS_TICKS_PER_SEC := by
      rw [hsDstDef]
      simp only [WINDOWS_TICKS_PER_SEC]
      omega
    rw [hstdE, hdstE]
    have hsStdLo : 86400 ≤ sStd := by omega
    have hsStdHi : sStd < 10674942 * 86400 := by omega
    have hsDstLo : 86400 ≤ sDst := by omega
    have hsDstHi : sDst < 10674942 * 86400 := by omega
    have hRstd := render_shape dtzi sStd hsStdLo hsStdHi hb1 hb2 hb3 hb4
    have hRdst := render_shape dtzi sDst hsDstLo hsDstHi hb1 hb2 hb3 hb4
    set bStd : Int := dtzi.tzi.Bias +
      (if is_daylight_time dtzi.tzi
          (fileTimeToSystemTime (sStd * WINDOWS_TICKS_PER_SEC)) then
        dtzi.tzi.DaylightBias
      else dtzi.tzi.StandardBias) with hbStdDef
    set bDst : Int := dtzi.tzi.Bias +
      (if is_daylight_time dtzi.tzi
          (fileTimeToSystemTime (sDst * WINDOWS_TICKS_PER_SEC)) then
        dtzi.tzi.DaylightBias
      else dtzi.tzi.StandardBias) with hbDstDef
    have hbStdB : -86400 ≤ bStd * 60 ∧ bStd * 60 ≤ 86400 := by
      rw [hbStdDef]
      split
      · exact ⟨hb4, hb3⟩
      · exact ⟨hb2, hb1⟩
    have hbDstB : -86400 ≤ bDst * 60 ∧ bDst * 60 ≤ 86400 := by
      rw [hbDstDef]
      split
      · exact ⟨hb4, hb3⟩
      · exact ⟨hb2, hb1⟩
    set aStd := ((sStd : Int) - bStd * 60).toNat with haStdDef
    set aDst := ((sDst : Int) - bDst * 60).toNat with haDstDef
    rw [hRstd, hRdst]
    have haStdR : aStd < 10674942 * 86400 := by omega
    have haDstR : aDst < 10674942 * 86400 := by omega
    by_cases hB1 : fileTimeToSystemTime (aStd * WINDOWS_TICKS_PER_SEC) =
        fileTimeToSystemTime (n * WINDOWS_TICKS_PER_SEC)
    · rw [if_pos hB1, hRstd, hB1, unix_of_ft n hnR]
      constructor
      · intro _
        exact Or.inl rfl
      · intro _
        omega
    · rw [if_neg hB1]
      by_cases hB2 : fileTimeToSystemTime (aDst * WINDOWS_TICKS_PER_SEC) =
          fileTimeToSystemTime (n * WINDOWS_TICKS_PER_SEC)
      · rw [if_pos hB2, hRdst, hB2, unix_of_ft n hnR]
        constructor
        · intro _
          exact Or.inr rfl
        · intro _
          omega
      · rw [if_neg hB2, hRstd, unix_of_ft aStd haStdR]
        constructor
        · intro h0
          exfalso
          apply hB1
          have han : aStd = n := by omega
          rw [han]
        · intro hr
          rcases hr with h | h
          · exact absurd h hB1
          · exact absurd h hB2

/-- C8 counterexample: the wall-clock input 2021-11-07 01:30 for the Eastern
    record is a REPEATED local time — two distinct UTC instants (05:30Z and
    06:30Z) both convert back to it — yet `offset_at_datetime` returns a
    correction of 0 for it (with offset -18000), not the non-zero value the
    original claim requires for repeated inputs. -/
theorem C8_counterexample :
    systemTimeToTzSpecificLocalTime easternDtzi
        (unix_time_to_systemtime (1636248600 + 18000)) =
      unix_time_to_systemtime 1636248600 ∧
    systemTimeToTzSpecificLocalTime easternDtzi
        (unix_time_to_systemtime (1636248600 + 14400)) =
      unix_time_to_systemtime 1636248600 ∧
    unix_time_to_systemtime (1636248600 + 18000) ≠
      unix_time_to_systemtime (1636248600 + 14400) ∧
    (offset_at_datetime eastMap ⟨[("Eastern Standard Time", easternDtzi)], 100⟩
        50 [] "America/New_York" 1636248600 77).2 = .ok (0, -18000) := by
  refine ⟨rfl, rfl, by decide, rfl⟩

/-- C8 witness: the amended statement at the Eastern record and the repeated
    local input 2021-11-07 01:30 (where the correction is 0 and the input is
    representable). -/
theorem C8_local_correction_witness :
    offset_at_datetime eastMap ⟨[("Eastern Standard Time", easternDtzi)], 100⟩
        50 [] "America/New_York" 1636248600 77 =
      (⟨[("Eastern Standard Time", easternDtzi)], 100⟩,
        .ok (systemtime_to_unix_time (systemTimeToTzSpecificLocalTime
            easternDtzi (tzSpecificLocalTimeToSystemTime easternDtzi
              (unix_time_to_systemtime 1636248600))) - 1636248600,
          offset_at_systime easternDtzi (tzSpecificLocalTimeToSystemTime
            easternDtzi (unix_time_to_systemtime 1636248600)))) ∧
    (systemtime_to_unix_time (systemTimeToTzSpecificLocalTime easternDtzi
        (tzSpecificLocalTimeToSystemTime easternDtzi
          (unix_time_to_systemtime 1636248600))) - 1636248600 = 0 ↔
      locallyRepresentable easternDtzi (unix_time_to_systemtime 1636248600)) :=
  C8_local_correction eastMap ⟨[("Eastern Standard Time", easternDtzi)], 100⟩
    ⟨[("Eastern Standard Time", easternDtzi)], 100⟩ 50 [] "America/New_York"
    1636248600 77 easternDtzi rfl (by decide) (by decide) (by decide)
    (by decide) (by decide) (by decide)
